import Mathlib

/-
Verification of the smart-road reservation engine (src/src/intersection.rs,
src/src/vehicle.rs, src/src/route.rs) against its natural-language spec.

Embedding conventions:
- f32 simulation times, pixel coordinates and distances become ℚ (the code
  performs only comparisons, +, -, *, / on them).
- The reservation grid (a flattened Vec<Cell> indexed by row * cols + col,
  guarded by col < cols && row < rows) becomes a total function
  (ℕ × ℕ) → List TimeSlot; the in-bounds guard makes the flat index injective
  on the guarded range, so the function view is faithful.
- usize casts of nonnegative f32 values (`(x / zone) as usize`) become
  rational floor followed by Int.toNat (Rust float-to-usize casts saturate at
  0 for negative values, matching Int.toNat).
-/

namespace SmartRoad

/-- Modelled from the spec: src/src/velocities.rs is declared
(`mod velocities;` in main.rs) but absent from the sources. The spec gives
the commanded speeds and their total order stopped < slow < medium < fast;
intersection.rs uses exactly the four variants Stopped, Slow, Medium, Fast. -/
inductive Velocity where
  | stopped
  | slow
  | medium
  | fast
deriving DecidableEq

/-- Route shapes, from src/src/route.rs. -/
inductive Route where
  | Right
  | Left
  | Straight
deriving DecidableEq

/-- Travel directions, from src/src/route.rs. -/
inductive Direction where
  | North
  | South
  | East
  | West
deriving DecidableEq

/-- One reservation interval held by a grid cell (struct TimeSlot in
intersection.rs); the source field named end is called endt here because
end is a Lean keyword. -/
structure TimeSlot where
  start : ℚ
  endt : ℚ
  vehicle_id : ℕ
deriving DecidableEq

/-- Grid cell size in pixels (zone_px in SmartIntersection::new). -/
def zone_px : ℚ := 10

/-- Number of grid columns: 300 / zone_px = 30 (SmartIntersection::new). -/
def cols : ℕ := 30

/-- Number of grid rows, equal to cols (SmartIntersection::new). -/
def rows : ℕ := 30

/-- Intersection bounding box, from the geometry constants in
intersection.rs. -/
def IX_MIN : ℚ := 350

def IY_MIN : ℚ := 350

def IX_MAX : ℚ := 650

def IY_MAX : ℚ := 650

/-- The reservation grid: each (col, row) cell holds its list of slots.
The source stores Vec<Cell> flattened by cell_index(col, row) =
row * cols + col, always accessed behind a col < cols && row < rows guard. -/
def Grid : Type := (ℕ × ℕ) → List TimeSlot

/-- The grid a fresh SmartIntersection starts with: every cell empty. -/
def emptyGrid : Grid := fun _ => []

/-- Pointwise update of one cell of the grid. -/
def updateCell (g : Grid) (p : ℕ × ℕ) (f : List TimeSlot → List TimeSlot) :
    Grid :=
  fun q => if q = p then f (g q) else g q

/-- SmartIntersection::conflict: some slot of the cell overlaps the half-open
query interval, via the strict test start < slot.end && slot.start < end. -/
def conflict (cell : List TimeSlot) (start endq : ℚ) : Bool :=
  cell.any fun slot => decide (start < slot.endt) && decide (slot.start < endq)

/-- SmartIntersection::can_reserve_cells: every listed in-bounds cell is
conflict-free on the window; out-of-bounds cells are skipped (continue). -/
def can_reserve_cells (g : Grid) (cells : List (ℕ × ℕ))
    (start endq : ℚ) : Bool :=
  cells.all fun c =>
    if c.1 < cols ∧ c.2 < rows then !(conflict (g c) start endq) else true

/-- SmartIntersection::reserve_cells_for_vehicle: push a slot onto every
listed in-bounds cell (out-of-bounds cells skipped). -/
def reserve_cells_for_vehicle (g : Grid) (vehicle_id : ℕ)
    (cells : List (ℕ × ℕ)) (start endq : ℚ) : Grid :=
  cells.foldl
    (fun acc c =>
      if c.1 < cols ∧ c.2 < rows then
        updateCell acc c (fun l => l ++ [⟨start, endq, vehicle_id⟩])
      else acc)
    g

/-- SmartIntersection::release_specific_cells: retain, in every listed
in-bounds cell, only the slots of other vehicles (out-of-bounds skipped). -/
def release_specific_cells (g : Grid) (cells : List (ℕ × ℕ))
    (vehicle_id : ℕ) : Grid :=
  cells.foldl
    (fun acc c =>
      if c.1 < cols ∧ c.2 < rows then
        updateCell acc c (List.filter fun slot => !decide (slot.vehicle_id = vehicle_id))
      else acc)
    g

/-- One segment of a cached path (struct PathSegment). -/
structure PathSegment where
  cells : List (ℕ × ℕ)
  distance : ℚ

/-- A cached path: segment 1, optional post-turn segment 2, optional turn
point (struct VehiclePath). -/
structure VehiclePath where
  segment1 : PathSegment
  segment2 : Option PathSegment
  turn_position : Option (ℚ × ℚ)

/-- get_turn_position from src/src/route.rs. -/
def get_turn_position (direction : Direction) (route : Route) : ℚ × ℚ :=
  match route with
  | .Straight => (0, 0)
  | .Right =>
    match direction with
    | .North => (600, 610)
    | .South => (350, 390)
    | .East => (400, 635)
    | .West => (600, 385)
  | .Left =>
    match direction with
    | .North => (500, 470)
    | .South => (450, 540)
    | .East => (550, 535)
    | .West => (450, 485)

/-- The Rust half-open range a..b as a list. -/
def rangeTo (a b : ℕ) : List ℕ := (List.range (b - a)).map (a + ·)

/-- The Rust inclusive range a..=b as a list (empty when a > b). -/
def rangeThrough (a b : ℕ) : List ℕ := rangeTo a (b + 1)

/-- Rust `as usize` on an f32: truncation toward zero, saturating at 0 for
negative values. On a rational this is num.toNat / den (negative numerators
saturate to 0 through Int.toNat). -/
def ratToUsize (q : ℚ) : ℕ := q.num.toNat / q.den

/-- calculate_straight_path_cells: the five full-span lane columns or rows of
a through route, pushed row-major exactly as the source loops do. -/
def calculate_straight_path_cells (direction : Direction) :
    List (ℕ × ℕ) :=
  match direction with
  | .North =>
    (List.range rows).flatMap fun row =>
      (rangeTo 20 25).filterMap fun col =>
        if col < cols then some (col, row) else none
  | .South =>
    (List.range rows).flatMap fun row =>
      (rangeTo 5 10).filterMap fun col =>
        if col < cols then some (col, row) else none
  | .East =>
    (List.range cols).flatMap fun col =>
      (rangeTo 20 25).filterMap fun row =>
        if row < rows then some (col, row) else none
  | .West =>
    (List.range cols).flatMap fun col =>
      (rangeTo 5 10).filterMap fun row =>
        if row < rows then some (col, row) else none

/-- calculate_straight_path_distance: the fixed 300 px intersection span. -/
def calculate_straight_path_distance (_direction : Direction) : ℚ := 300

/-- calculate_path_to_turn: entry-lane cells from the field edge to the turn
point, and the straight-line distance covered. -/
def calculate_path_to_turn (direction : Direction) (route : Route)
    (turn_pos : ℚ × ℚ) : List (ℕ × ℕ) × ℚ :=
  match direction with
  | .North =>
    let colsR := if route = .Left then rangeTo 15 20 else rangeTo 25 30
    let entry_y : ℚ := 650
    let turn_y := turn_pos.2
    let distance := entry_y - turn_y
    let start_row := ratToUsize ((turn_y - IY_MIN) / zone_px)
    let end_row := ratToUsize ((entry_y - IY_MIN) / zone_px)
    let cells := (rangeThrough start_row (min end_row (rows - 1))).flatMap
      fun row => colsR.filterMap fun col =>
        if col < cols then some (col, row) else none
    (cells, distance)
  | .South =>
    let colsR := if route = .Left then rangeTo 10 15 else rangeTo 0 5
    let entry_y : ℚ := 350
    let turn_y := turn_pos.2
    let distance := turn_y - entry_y
    let start_row := ratToUsize ((entry_y - IY_MIN) / zone_px)
    let end_row := ratToUsize ((turn_y - IY_MIN) / zone_px)
    let cells := (rangeThrough start_row (min end_row (rows - 1))).flatMap
      fun row => colsR.filterMap fun col =>
        if col < cols then some (col, row) else none
    (cells, distance)
  | .East =>
    let rowsR := if route = .Left then rangeTo 15 20 else rangeTo 25 30
    let entry_x : ℚ := 350
    let turn_x := turn_pos.1
    let distance := turn_x - entry_x
    let start_col := ratToUsize ((entry_x - IX_MIN) / zone_px)
    let end_col := ratToUsize ((turn_x - IX_MIN) / zone_px)
    let cells := (rangeThrough start_col (min end_col (cols - 1))).flatMap
      fun col => rowsR.filterMap fun row =>
        if row < rows then some (col, row) else none
    (cells, distance)
  | .West =>
    let rowsR := if route = .Left then rangeTo 10 15 else rangeTo 0 5
    let entry_x : ℚ := 650
    let turn_x := turn_pos.1
    let distance := entry_x - turn_x
    let start_col := ratToUsize ((turn_x - IX_MIN) / zone_px)
    let end_col := ratToUsize ((entry_x - IX_MIN) / zone_px)
    let cells := (rangeThrough start_col (min end_col (cols - 1))).flatMap
      fun col => rowsR.filterMap fun row =>
        if row < rows then some (col, row) else none
    (cells, distance)

/-- The post-turn travel direction table at the top of
calculate_path_from_turn. -/
def new_direction_after_turn (direction : Direction) (route : Route) :
    Direction :=
  match direction, route with
  | .North, .Right => .East
  | .North, .Left => .West
  | .South, .Right => .West
  | .South, .Left => .East
  | .East, .Right => .South
  | .East, .Left => .North
  | .West, .Right => .North
  | .West, .Left => .South
  | d, .Straight => d

/-- calculate_path_from_turn: post-turn lane cells from the turn point to the
exit edge, and the straight-line distance covered. -/
def calculate_path_from_turn (direction : Direction) (route : Route)
    (turn_pos : ℚ × ℚ) : List (ℕ × ℕ) × ℚ :=
  match new_direction_after_turn direction route with
  | .North =>
    let exit_y : ℚ := 350
    let turn_y := turn_pos.2
    let distance := turn_y - exit_y
    let colsR := rangeTo 15 20
    let start_row := ratToUsize ((exit_y - IY_MIN) / zone_px)
    let end_row := ratToUsize ((turn_y - IY_MIN) / zone_px)
    let cells := (rangeThrough start_row (min end_row (rows - 1))).flatMap
      fun row => colsR.filterMap fun col =>
        if col < cols then some (col, row) else none
    (cells, distance)
  | .South =>
    let exit_y : ℚ := 650
    let turn_y := turn_pos.2
    let distance := exit_y - turn_y
    let colsR := rangeTo 10 15
    let start_row := ratToUsize ((turn_y - IY_MIN) / zone_px)
    let end_row := ratToUsize ((exit_y - IY_MIN) / zone_px)
    let cells := (rangeThrough start_row (min end_row (rows - 1))).flatMap
      fun row => colsR.filterMap fun col =>
        if col < cols then some (col, row) else none
    (cells, distance)
  | .East =>
    let exit_x : ℚ := 650
    let turn_x := turn_pos.1
    let distance := exit_x - turn_x
    let rowsR := rangeTo 10 15
    let start_col := ratToUsize ((turn_x - IX_MIN) / zone_px)
    let end_col := ratToUsize ((exit_x - IX_MIN) / zone_px)
    let cells := (rangeThrough start_col (min end_col (cols - 1))).flatMap
      fun col => rowsR.filterMap fun row =>
        if row < rows then some (col, row) else none
    (cells, distance)
  | .West =>
    let exit_x : ℚ := 350
    let turn_x := turn_pos.1
    let distance := turn_x - exit_x
    let rowsR := rangeTo 15 20
    let start_col := ratToUsize ((exit_x - IX_MIN) / zone_px)
    let end_col := ratToUsize ((turn_x - IX_MIN) / zone_px)
    let cells := (rangeThrough start_col (min end_col (cols - 1))).flatMap
      fun col => rowsR.filterMap fun row =>
        if row < rows then some (col, row) else none
    (cells, distance)

/-- calculate_vehicle_path: a through route has one segment, a turning route
has two plus the turn point. -/
def calculate_vehicle_path (direction : Direction) (route : Route) :
    VehiclePath :=
  match route with
  | .Straight =>
    { segment1 :=
        { cells := calculate_straight_path_cells direction
          distance := calculate_straight_path_distance direction }
      segment2 := none
      turn_position := none }
  | _ =>
    let turn_pos := get_turn_position direction route
    let seg1 := calculate_path_to_turn direction route turn_pos
    let seg2 := calculate_path_from_turn direction route turn_pos
    { segment1 := { cells := seg1.1, distance := seg1.2 }
      segment2 := some { cells := seg2.1, distance := seg2.2 }
      turn_position := some turn_pos }

/-- The path cache: a possibly-partial mapping, as the source HashMap is. -/
def PathCache : Type := Direction × Route → Option VehiclePath

/-- The four directions iterated by initialize_path_cache. -/
def allDirections : List Direction := [.North, .South, .East, .West]

/-- The three routes iterated by initialize_path_cache. -/
def allRoutes : List Route := [.Straight, .Left, .Right]

/-- The 12 (direction, route) entries inserted by initialize_path_cache. -/
def path_cache_entries : List ((Direction × Route) × VehiclePath) :=
  allDirections.flatMap fun d =>
    allRoutes.map fun r => ((d, r), calculate_vehicle_path d r)

/-- initialize_path_cache: the mapping holding exactly the 12 inserted
entries. -/
def initialize_path_cache : PathCache :=
  fun k => (path_cache_entries.find? fun e => e.1 = k).map (·.2)

/-- calculate_time_with_speed: distance over pixels-per-frame over the 60
frames-per-second tick rate; 0 for a stopped vehicle. -/
def calculate_time_with_speed (distance : ℚ) (speed : Velocity) : ℚ :=
  match speed with
  | .slow => distance / 3 / 60
  | .medium => distance / 5 / 60
  | .fast => distance / 7 / 60
  | .stopped => 0

/-- The descending candidate-speed list built at the top of
try_two_path_intersection_request from the speed passed in. -/
def speeds_to_try (current_speed : Velocity) : List Velocity :=
  match current_speed with
  | .fast => [.fast, .medium, .slow]
  | .medium => [.medium, .slow]
  | .slow => [.slow]
  | .stopped => [.fast]

/-- The candidate loop of try_two_path_intersection_request, acting on the
grid. For each candidate speed: compute segment 1's window from the distance
to the intersection and segment 1's length; if its cells are free and (for a
turning path) segment 2's cells are free on the chained window, commit both
reservations and grant at that speed; otherwise fall through to the next
candidate. Exhaustion denies with a commanded stop and an untouched grid.
(The source also writes the attempt speed into the vehicle struct while
looping; that touches no grid state and is outside this embedding.) -/
def tryLoop (path : VehiclePath) (vehicle_id : ℕ)
    (current_time distance_to_intersection : ℚ) (g : Grid) :
    List Velocity → Bool × Velocity × Grid
  | [] => (false, .stopped, g)
  | attempt_speed :: rest =>
    let time_to_intersection :=
      calculate_time_with_speed distance_to_intersection attempt_speed
    let segment1_time :=
      calculate_time_with_speed path.segment1.distance attempt_speed
    let segment1_entry := current_time + time_to_intersection
    let segment1_exit := segment1_entry + segment1_time
    if can_reserve_cells g path.segment1.cells segment1_entry segment1_exit
    then
      match path.segment2 with
      | none =>
        (true, attempt_speed,
          reserve_cells_for_vehicle g vehicle_id path.segment1.cells
            segment1_entry segment1_exit)
      | some segment2 =>
        let segment2_time :=
          calculate_time_with_speed segment2.distance attempt_speed
        let segment2_exit := segment1_exit + segment2_time
        if can_reserve_cells g segment2.cells segment1_exit segment2_exit
        then
          let g1 := reserve_cells_for_vehicle g vehicle_id
            path.segment1.cells segment1_entry segment1_exit
          (true, attempt_speed,
            reserve_cells_for_vehicle g1 vehicle_id segment2.cells
              segment1_exit segment2_exit)
        else
          tryLoop path vehicle_id current_time distance_to_intersection g rest
    else
      tryLoop path vehicle_id current_time distance_to_intersection g rest

/-- try_two_path_intersection_request: look the path up in the cache (a miss
logs a warning and denies with recommended speed Slow), then run the
candidate loop. Returns (permission, recommended speed) together with the
grid it leaves behind. -/
def try_two_path_intersection_request (cache : PathCache) (vehicle_id : ℕ)
    (route : Route) (direction : Direction) (current_speed : Velocity)
    (current_time distance_to_intersection : ℚ) (g : Grid) :
    Bool × Velocity × Grid :=
  match cache (direction, route) with
  | none => (false, .slow, g)
  | some path =>
    tryLoop path vehicle_id current_time distance_to_intersection g
      (speeds_to_try current_speed)

/-- The final-speed match at the end of the per-vehicle loop of
update_vehicles_with_two_path_system: a vehicle past the intersection is
commanded fast, otherwise the match arms combine the traffic speed and the
intersection speed. -/
def final_speed (is_past_intersection : Bool)
    (traffic_speed intersection_speed : Velocity) : Velocity :=
  if is_past_intersection then .fast
  else
    match traffic_speed, intersection_speed with
    | .stopped, _ => .stopped
    | _, .stopped => .stopped
    | .slow, _ => .slow
    | _, .slow => .slow
    | .medium, _ => .medium
    | _, .medium => .medium
    | .fast, .fast => .fast

/-- Rank of a speed in the total order of the spec:
stopped < slow < medium < fast. -/
def velRank : Velocity → ℕ
  | .stopped => 0
  | .slow => 1
  | .medium => 2
  | .fast => 3

/-- Modelled from the spec: the minimum of two commanded speeds under the
total order stopped < slow < medium < fast (the spec side of the
speed-combination law; compared against final_speed from the source). -/
def velMin (a b : Velocity) : Velocity :=
  if velRank a ≤ velRank b then a else b

/-- The traffic-speed decision block of update_vehicles_with_two_path_system
(its target_speed assignment): given the distance to the closest vehicle
ahead (none when no vehicle is ahead, the f32::MAX sentinel of the source)
and the required safe-following distance, keep fast unless closer than
required, dropping to stopped below 70 percent of required and to medium
below 80 percent. -/
def traffic_speed_decision (closest_distance : Option ℚ)
    (required_distance : ℚ) : Velocity :=
  match closest_distance with
  | none => .fast
  | some c =>
    if c < required_distance then
      if c < required_distance * (7 / 10) then .stopped
      else if c < required_distance * (8 / 10) then .medium
      else .fast
    else .fast

/-- The intersection_speed computation for one vehicle, lines 487-553 of
update_vehicles_with_two_path_system: the far reset of the two request
flags, then the branch ladder choosing fast, a stopped-at-the-entrance
retry at the fast candidate, or a normal adaptive request. Returns the
intersection speed, the updated requested and permission flags, and the
grid the embedded request leaves behind. -/
def intersection_speed_decision (cache : PathCache) (vehicle_id : ℕ)
    (vehicle_route : Route) (vehicle_direction : Direction)
    (vehicle_speed : Velocity) (distance_to_intersection : ℚ)
    (is_past_intersection is_in_intersection : Bool)
    (requested_intersection intersection_permission : Bool)
    (current_time : ℚ) (g : Grid) : Velocity × Bool × Bool × Grid :=
  let requested_intersection :=
    if distance_to_intersection > 150 then false else requested_intersection
  let intersection_permission :=
    if distance_to_intersection > 150 then false else intersection_permission
  if is_past_intersection then
    (.fast, requested_intersection, intersection_permission, g)
  else if distance_to_intersection > 60 then
    (.fast, requested_intersection, intersection_permission, g)
  else if is_in_intersection then
    (.fast, requested_intersection, intersection_permission, g)
  else if !requested_intersection || !intersection_permission then
    if distance_to_intersection ≤ 10 ∧ !intersection_permission then
      let res := try_two_path_intersection_request cache vehicle_id
        vehicle_route vehicle_direction .fast current_time
        distance_to_intersection g
      ((if res.1 then Velocity.fast else Velocity.stopped), true, res.1,
        res.2.2)
    else
      let res := try_two_path_intersection_request cache vehicle_id
        vehicle_route vehicle_direction vehicle_speed current_time
        distance_to_intersection g
      ((if !res.1 ∧ distance_to_intersection ≤ 15 then Velocity.stopped
        else res.2.1), true, res.1, res.2.2)
  else
    (.fast, requested_intersection, intersection_permission, g)

/-- The fields of struct Vehicle (src/src/vehicle.rs) read by the geometry
helpers, the traffic scan and the close-call pass (texture, speed, flags and
turn bookkeeping are not needed by those functions). The f64 rotation only
ever holds 0, 90, 180 or 270 and is read through `as i32`, so it is embedded
as ℤ. -/
structure Veh where
  id : ℕ
  route : Route
  direction : Direction
  width : ℚ
  height : ℚ
  safety_distance : ℚ
  position : ℚ × ℚ
  rotation : ℤ

/-- Vehicle::get_center. -/
def get_center (v : Veh) : ℚ × ℚ :=
  (v.position.1 + v.width / 2, v.position.2 + v.height / 2)

/-- Vehicle::get_visual_bounds: the axis-aligned box of the rotated sprite,
keyed on rotation mod 360 (Rust % on i32 truncates, Int.tmod). -/
def get_visual_bounds (v : Veh) : ℚ × ℚ × ℚ × ℚ :=
  let center_x := v.position.1 + v.width / 2
  let center_y := v.position.2 + v.height / 2
  let m := v.rotation.tmod 360
  if m = 0 ∨ m = 180 then
    (v.position.1, v.position.2, v.width, v.height)
  else if m = 90 ∨ m = 270 then
    let visual_width := v.height
    let visual_height := v.width
    (center_x - visual_width / 2, center_y - visual_height / 2,
      visual_width, visual_height)
  else
    (v.position.1, v.position.2, v.width, v.height)

/-- Vehicle::is_in_intersection: the visual box overlaps the 350..650
square. -/
def is_in_intersection (v : Veh) : Bool :=
  let b := get_visual_bounds v
  let vx := b.1
  let vy := b.2.1
  let vw := b.2.2.1
  let vh := b.2.2.2
  !(decide (vx + vw < 350) || decide (vx > 650) || decide (vy + vh < 350) ||
    decide (vy > 650))

/-- Vehicle::is_past_intersection: the footprint center is already beyond
the far edge of the zone along the travel direction. -/
def is_past_intersection (v : Veh) : Bool :=
  let center := get_center v
  match v.direction with
  | .North => decide (center.2 < 350)
  | .South => decide (center.2 > 650)
  | .East => decide (center.1 > 650)
  | .West => decide (center.1 < 350)

/-- Vehicle::is_in_same_lane: same direction and cross-axis centers within
the 30 px lane tolerance. -/
def is_in_same_lane (v other : Veh) : Bool :=
  if v.direction = other.direction then
    let my_center := get_center v
    let other_center := get_center other
    match v.direction with
    | .North | .South => decide (|my_center.1 - other_center.1| < 30)
    | .East | .West => decide (|my_center.2 - other_center.2| < 30)
  else false

/-- Vehicle::is_ahead_of_me: in the same lane and further along the travel
axis. -/
def is_ahead_of_me (v other : Veh) : Bool :=
  if is_in_same_lane v other then
    let my_center := get_center v
    let other_center := get_center other
    match v.direction with
    | .North => decide (other_center.2 < my_center.2)
    | .South => decide (other_center.2 > my_center.2)
    | .East => decide (other_center.1 > my_center.1)
    | .West => decide (other_center.1 < my_center.1)
  else false

/-- Vehicle::distance_to_vehicle: absolute center distance along the travel
axis. -/
def distance_to_vehicle (v other : Veh) : ℚ :=
  let my_center := get_center v
  let other_center := get_center other
  match v.direction with
  | .North | .South => |my_center.2 - other_center.2|
  | .East | .West => |my_center.1 - other_center.1|

/-- Vehicle::get_safe_following_distance: half of each length along the
travel axis plus the safety buffer. -/
def get_safe_following_distance (v lead_vehicle : Veh) : ℚ :=
  let my_length :=
    match v.direction with
    | .North | .South => v.height
    | .East | .West => v.width
  let lead_length :=
    match lead_vehicle.direction with
    | .North | .South => lead_vehicle.height
    | .East | .West => lead_vehicle.width
  my_length / 2 + lead_length / 2 + v.safety_distance

/-- The closest-vehicle-ahead scan of update_vehicles_with_two_path_system
(its inner for loop): track the smallest distance among vehicles ahead and
the safe-following distance recorded with it (none plays the f32::MAX
sentinel of the source; required_distance starts at 0). -/
def closest_ahead_scan (vehicles : List Veh) (i : ℕ) (cur : Veh) :
    Option ℚ × ℚ :=
  vehicles.enum.foldl
    (fun acc je =>
      if je.1 = i then acc
      else if is_ahead_of_me cur je.2 then
        let distance := distance_to_vehicle cur je.2
        match acc.1 with
        | none => (some distance, get_safe_following_distance cur je.2)
        | some c =>
          if distance < c then
            (some distance, get_safe_following_distance cur je.2)
          else acc
      else acc)
    (none, 0)

/-- The whole traffic-speed computation for vehicle i (lines 431-467 of
update_vehicles_with_two_path_system): fast when past the intersection,
otherwise the threshold decision on the closest vehicle ahead. The source
indexes the vehicle list directly; an out-of-range index (unreachable there)
is given the initial value fast. -/
def traffic_target_speed (vehicles : List Veh) (i : ℕ) : Velocity :=
  match vehicles[i]? with
  | none => .fast
  | some cur =>
    if is_past_intersection cur then .fast
    else
      let scan := closest_ahead_scan vehicles i cur
      traffic_speed_decision scan.1 scan.2

/-- The close-call statistics touched by detect_close_calls: the running
counter and the set of already-flagged normalized id pairs (a HashSet in the
source; membership-checked before every insert, embedded as a list). -/
structure CloseCallStats where
  close_calls : ℕ
  close_call_pairs_this_frame : List (ℕ × ℕ)
deriving DecidableEq

/-- SmartIntersection::detect_close_calls for the vehicle at index i: skip
unless it is inside the zone; for every other vehicle, normalize the id
pair, skip pairs already flagged, and count a close call when the axis
distance is under the 5 px safety floor with both vehicles inside the
zone. -/
def detect_close_calls (vehicles : List Veh) (i : ℕ)
    (st : CloseCallStats) : CloseCallStats :=
  match vehicles[i]? with
  | none => st
  | some current_vehicle =>
    if !(is_in_intersection current_vehicle) then st
    else
      vehicles.enum.foldl
        (fun st je =>
          if i = je.1 then st
          else
            let other_vehicle := je.2
            let pair :=
              if current_vehicle.id < other_vehicle.id then
                (current_vehicle.id, other_vehicle.id)
              else (other_vehicle.id, current_vehicle.id)
            if st.close_call_pairs_this_frame.contains pair then st
            else
              let distance := distance_to_vehicle current_vehicle
                other_vehicle
              if decide (distance < 5) &&
                  (is_in_intersection current_vehicle &&
                    is_in_intersection other_vehicle) then
                { close_calls := st.close_calls + 1
                  close_call_pairs_this_frame :=
                    pair :: st.close_call_pairs_this_frame }
              else st)
        st

/-- One tick's close-call pass: the apply loop of
update_vehicles_with_two_path_system calls detect_close_calls once per
vehicle index. Neither update nor any other function of the source ever
clears close_call_pairs_this_frame. -/
def close_call_pass (vehicles : List Veh) (st : CloseCallStats) :
    CloseCallStats :=
  (List.range vehicles.length).foldl
    (fun st i => detect_close_calls vehicles i st) st

/-! Shared lemmas about the reservation grid operations. -/

/-- can_reserve_cells succeeds exactly when no listed in-bounds cell holds a
slot overlapping the half-open query window. -/
lemma can_reserve_cells_eq_true_iff (g : Grid) (cells : List (ℕ × ℕ))
    (start endq : ℚ) :
    can_reserve_cells g cells start endq = true ↔
      ∀ c ∈ cells, c.1 < cols → c.2 < rows →
        ∀ slot ∈ g c, ¬(start < slot.endt ∧ slot.start < endq) := by
  unfold can_reserve_cells conflict
  rw [List.all_eq_true]
  constructor
  · intro h c hc h1 h2 slot hs hover
    have hcell := h c hc
    rw [if_pos ⟨h1, h2⟩, Bool.not_eq_true', List.any_eq_false] at hcell
    have := hcell slot hs
    simp only [Bool.and_eq_true, decide_eq_true_eq] at this
    exact this hover
  · intro h c hc
    by_cases hb : c.1 < cols ∧ c.2 < rows
    · rw [if_pos hb, Bool.not_eq_true', List.any_eq_false]
      intro slot hs hover
      simp only [Bool.and_eq_true, decide_eq_true_eq] at hover
      exact h c hc hb.1 hb.2 slot hs hover
    · rw [if_neg hb]

/-- Pointwise description of release_specific_cells: a listed in-bounds cell
keeps exactly its slots of other vehicles, every other cell is untouched. -/
lemma release_specific_cells_apply (g : Grid) (cells : List (ℕ × ℕ))
    (vehicle_id : ℕ) (p : ℕ × ℕ) :
    release_specific_cells g cells vehicle_id p =
      if p ∈ cells ∧ p.1 < cols ∧ p.2 < rows then
        (g p).filter fun slot => !decide (slot.vehicle_id = vehicle_id)
      else g p := by
  induction cells generalizing g with
  | nil => simp [release_specific_cells]
  | cons c cs ih =>
    have hstep : release_specific_cells g (c :: cs) vehicle_id =
        release_specific_cells
          (if c.1 < cols ∧ c.2 < rows then
            updateCell g c
              (List.filter fun slot => !decide (slot.vehicle_id = vehicle_id))
          else g) cs vehicle_id := rfl
    rw [hstep]
    by_cases hbc : c.1 < cols ∧ c.2 < rows
    · rw [if_pos hbc, ih]
      by_cases hpc : p = c
      · subst hpc
        simp only [updateCell, List.mem_cons, true_or, eq_self_iff_true,
          true_and, if_pos hbc, if_true, List.filter_filter, Bool.and_self,
          ite_self]
      · simp only [updateCell, List.mem_cons, hpc, false_or, if_false]
    · rw [if_neg hbc, ih]
      by_cases hpc : p = c
      · subst hpc
        rw [if_neg fun h => hbc h.2, if_neg fun h => hbc h.2]
      · simp only [List.mem_cons, hpc, false_or]

/-- Every slot of a cell after reserve_cells_for_vehicle is either an old
slot of that cell or the newly pushed slot, the latter only on listed
in-bounds cells. -/
lemma mem_reserve_cells_for_vehicle (g : Grid) (vehicle_id : ℕ)
    (cells : List (ℕ × ℕ)) (start endq : ℚ) (p : ℕ × ℕ) (slot : TimeSlot)
    (h : slot ∈ reserve_cells_for_vehicle g vehicle_id cells start endq p) :
    slot ∈ g p ∨
      (slot = ⟨start, endq, vehicle_id⟩ ∧ p ∈ cells ∧
        p.1 < cols ∧ p.2 < rows) := by
  induction cells generalizing g with
  | nil => exact Or.inl h
  | cons c cs ih =>
    have hstep : reserve_cells_for_vehicle g vehicle_id (c :: cs)
        start endq =
        reserve_cells_for_vehicle
          (if c.1 < cols ∧ c.2 < rows then
            updateCell g c (fun l => l ++ [⟨start, endq, vehicle_id⟩])
          else g) vehicle_id cs start endq := rfl
    rw [hstep] at h
    rcases ih _ h with hold | hnew
    · by_cases hbc : c.1 < cols ∧ c.2 < rows
      · rw [if_pos hbc] at hold
        unfold updateCell at hold
        by_cases hpc : p = c
        · rw [if_pos hpc] at hold
          rcases List.mem_append.mp hold with hl | hr
          · exact Or.inl hl
          · refine Or.inr ⟨List.mem_singleton.mp hr, hpc ▸ List.mem_cons_self c cs, hpc ▸ hbc⟩
        · rw [if_neg hpc] at hold
          exact Or.inl hold
      · rw [if_neg hbc] at hold
        exact Or.inl hold
    · exact Or.inr ⟨hnew.1, List.mem_cons_of_mem c hnew.2.1, hnew.2.2⟩

/-- Both reservation checks of one candidate speed inside the loop of
try_two_path_intersection_request, performed against the grid as it stands
when the loop is entered: segment 1 over its window, and segment 2 (when
present) over the window chained at segment 1's exit. -/
def admissible (g : Grid) (path : VehiclePath)
    (current_time distance_to_intersection : ℚ) (s : Velocity) : Bool :=
  let segment1_entry := current_time +
    calculate_time_with_speed distance_to_intersection s
  let segment1_exit := segment1_entry +
    calculate_time_with_speed path.segment1.distance s
  can_reserve_cells g path.segment1.cells segment1_entry segment1_exit &&
    match path.segment2 with
    | none => true
    | some segment2 =>
      can_reserve_cells g segment2.cells segment1_exit
        (segment1_exit + calculate_time_with_speed segment2.distance s)

/-- The commit performed for the successful candidate speed: reserve
segment 1's cells over its window, then (for a turning path) segment 2's
cells over the chained window. -/
def commit_reservations (g : Grid) (vehicle_id : ℕ) (path : VehiclePath)
    (current_time distance_to_intersection : ℚ) (s : Velocity) : Grid :=
  let segment1_entry := current_time +
    calculate_time_with_speed distance_to_intersection s
  let segment1_exit := segment1_entry +
    calculate_time_with_speed path.segment1.distance s
  let g1 := reserve_cells_for_vehicle g vehicle_id path.segment1.cells
    segment1_entry segment1_exit
  match path.segment2 with
  | none => g1
  | some segment2 =>
    reserve_cells_for_vehicle g1 vehicle_id segment2.cells segment1_exit
      (segment1_exit + calculate_time_with_speed segment2.distance s)

/-- The candidate loop grants at the first admissible speed of the list,
committing both segments against the entry grid, and denies with the grid
untouched when no candidate is admissible. -/
lemma tryLoop_eq_find (path : VehiclePath) (vehicle_id : ℕ)
    (current_time distance_to_intersection : ℚ) (g : Grid) :
    ∀ speeds : List Velocity,
      tryLoop path vehicle_id current_time distance_to_intersection g
          speeds =
        match speeds.find?
            (admissible g path current_time distance_to_intersection) with
        | none => (false, .stopped, g)
        | some s =>
          (true, s,
            commit_reservations g vehicle_id path current_time
              distance_to_intersection s) := by
  intro speeds
  induction speeds with
  | nil => rfl
  | cons s rest ih =>
    by_cases h1 : can_reserve_cells g path.segment1.cells
        (current_time + calculate_time_with_speed distance_to_intersection s)
        ((current_time +
            calculate_time_with_speed distance_to_intersection s) +
          calculate_time_with_speed path.segment1.distance s)
    · cases hseg : path.segment2 with
      | none =>
        have hadm : admissible g path current_time distance_to_intersection
            s = true := by
          simp only [admissible, hseg, h1, Bool.true_and]
        rw [List.find?_cons_of_pos _ hadm]
        simp only [tryLoop, commit_reservations, hseg, h1, if_true]
      | some segment2 =>
        by_cases h2 : can_reserve_cells g segment2.cells
            ((current_time +
                calculate_time_with_speed distance_to_intersection s) +
              calculate_time_with_speed path.segment1.distance s)
            (((current_time +
                calculate_time_with_speed distance_to_intersection s) +
              calculate_time_with_speed path.segment1.distance s) +
              calculate_time_with_speed segment2.distance s)
        · have hadm : admissible g path current_time
              distance_to_intersection s = true := by
            simp only [admissible, hseg, h1, h2, Bool.and_self]
          rw [List.find?_cons_of_pos _ hadm]
          simp only [tryLoop, commit_reservations, hseg, h1, h2, if_true]
        · have hadm : admissible g path current_time
              distance_to_intersection s = false := by
            simp only [admissible, hseg, h1, h2, Bool.and_false,
              Bool.true_and]
          rw [List.find?_cons_of_neg _
            (by rw [hadm]; exact Bool.false_ne_true)]
          have hloop : tryLoop path vehicle_id current_time
              distance_to_intersection g (s :: rest) =
              tryLoop path vehicle_id current_time distance_to_intersection
                g rest := by
            simp only [tryLoop, hseg, h1, h2, if_true, if_false,
              Bool.false_eq_true]
          rw [hloop, ih]
    · have hadm : admissible g path current_time distance_to_intersection
          s = false := by
        simp only [admissible, h1, Bool.false_and]
      rw [List.find?_cons_of_neg _ (by rw [hadm]; exact Bool.false_ne_true)]
      have hloop : tryLoop path vehicle_id current_time
          distance_to_intersection g (s :: rest) =
          tryLoop path vehicle_id current_time distance_to_intersection
            g rest := by
        simp only [tryLoop, h1, if_false, Bool.false_eq_true]
      rw [hloop, ih]

/-- C2: every call to try_two_path_intersection_request either leaves the
grid entirely unchanged (denial, including a cache miss), or commits both
segments with exactly the windows of the single first admissible candidate
speed of the descending list, computed against the grid as it was at entry;
candidates checked and rejected before it contribute no reservations. -/
theorem admission_atomicity (cache : PathCache) (vehicle_id : ℕ)
    (route : Route) (direction : Direction) (current_speed : Velocity)
    (current_time distance_to_intersection : ℚ) (g : Grid) :
    ((try_two_path_intersection_request cache vehicle_id route direction
        current_speed current_time distance_to_intersection g).1 = false ∧
      (try_two_path_intersection_request cache vehicle_id route direction
        current_speed current_time distance_to_intersection g).2.2 = g) ∨
    ∃ path s,
      cache (direction, route) = some path ∧
      (speeds_to_try current_speed).find?
        (admissible g path current_time distance_to_intersection) = some s ∧
      try_two_path_intersection_request cache vehicle_id route direction
          current_speed current_time distance_to_intersection g =
        (true, s,
          commit_reservations g vehicle_id path current_time
            distance_to_intersection s) := by
  unfold try_two_path_intersection_request
  cases hc : cache (direction, route) with
  | none => exact Or.inl ⟨rfl, rfl⟩
  | some path =>
    dsimp only
    rw [tryLoop_eq_find]
    cases hf : (speeds_to_try current_speed).find?
        (admissible g path current_time distance_to_intersection) with
    | none => exact Or.inl ⟨rfl, rfl⟩
    | some s => exact Or.inr ⟨path, s, rfl, hf, rfl⟩

/-- C3: for a vehicle not past the intersection, the final-speed match of
update_vehicles_with_two_path_system computes, on all 16 combinations of
traffic speed and intersection speed, the minimum of the two under the
total order stopped < slow < medium < fast. -/
theorem speed_combination_law :
    ∀ traffic_speed intersection_speed : Velocity,
      final_speed false traffic_speed intersection_speed =
        velMin traffic_speed intersection_speed := by
  intro t i
  cases t <;> cases i <;> rfl

/-- C4: for every cell list and timestamps start < end, can_reserve_cells
returns true iff no in-bounds listed cell holds a reservation overlapping
the window under the strict half-open test; listed cells outside the grid
bounds are skipped and never block admission (they are absent from the
right-hand side). -/
theorem can_reserve_contract (g : Grid) (cells : List (ℕ × ℕ))
    (start endq : ℚ) (_hlt : start < endq) :
    can_reserve_cells g cells start endq = true ↔
      ∀ c ∈ cells, c.1 < cols → c.2 < rows →
        ∀ slot ∈ g c, ¬(start < slot.endt ∧ slot.start < endq) :=
  can_reserve_cells_eq_true_iff g cells start endq

/-- Witness for C4 at a concrete input: an empty single listed cell admits
the window 0..1. -/
theorem can_reserve_contract_witness :
    (0 : ℚ) < 1 ∧
      (can_reserve_cells emptyGrid [(3, 4)] 0 1 = true ↔
        ∀ c ∈ [((3 : ℕ), (4 : ℕ))], c.1 < cols → c.2 < rows →
          ∀ slot ∈ emptyGrid c, ¬((0 : ℚ) < slot.endt ∧ slot.start < 1)) :=
  ⟨by norm_num, can_reserve_contract emptyGrid [(3, 4)] 0 1 (by norm_num)⟩

/-- C9: release_specific_cells removes exactly the reservations authored by
the given vehicle id from the listed in-bounds cells, regardless of their
time windows; reservations of other vehicles and the contents of unlisted
(or out-of-bounds) cells are untouched, and on cells where the vehicle holds
nothing the filter is the identity. -/
theorem release_safety_frame (g : Grid) (cells : List (ℕ × ℕ))
    (vehicle_id : ℕ) (p : ℕ × ℕ) :
    release_specific_cells g cells vehicle_id p =
      if p ∈ cells ∧ p.1 < cols ∧ p.2 < rows then
        (g p).filter fun slot => !decide (slot.vehicle_id = vehicle_id)
      else g p :=
  release_specific_cells_apply g cells vehicle_id p

set_option maxRecDepth 8000

/-- C10: every cell stored in any segment of any of the 12 cached paths is
inside the 30x30 grid, so on path-cache cell lists the out-of-bounds skip
branches of can_reserve_cells, reserve_cells_for_vehicle and
release_specific_cells never fire. -/
theorem path_cache_cells_in_bounds :
    ∀ (d : Direction) (r : Route),
      ∀ c ∈ ((initialize_path_cache (d, r)).map fun path =>
          path.segment1.cells ++ path.segment2.elim [] (·.cells)).getD [],
        c.1 < cols ∧ c.2 < rows := by
  intro d r
  cases d <;> cases r <;> with_unfolding_all decide

/-- Witness for C10 at a concrete input: the first cell of the cached
North-straight path is in bounds. -/
theorem path_cache_cells_in_bounds_witness :
    (20, 0).1 < cols ∧ (20, 0).2 < rows :=
  path_cache_cells_in_bounds .North .Straight (20, 0) (by decide)
/-- The no-overlap property of the reservation grid: no cell holds two
reservations of different vehicles whose half-open windows overlap under
the strict test of SmartIntersection::conflict. -/
def NoOverlapInvariant (g : Grid) : Prop :=
  ∀ p : ℕ × ℕ, ∀ s1 ∈ g p, ∀ s2 ∈ g p,
    s1.vehicle_id ≠ s2.vehicle_id →
      ¬(s1.start < s2.endt ∧ s2.start < s1.endt)

/-- The grids reachable from the empty grid of SmartIntersection::new by
any sequence of spawn and update calls. spawn_vehicle never touches the
grid; within an update call the only grid mutations are the guarded commit
inside try_two_path_intersection_request and the trailing-edge
release_specific_cells, both invoked with parameters drawn from the vehicle
and clock state, over which this relation quantifies universally (so it
covers every run of the engine). -/
inductive ReachableGrid : Grid → Prop where
  | init : ReachableGrid emptyGrid
  | request (g : Grid) (h : ReachableGrid g) (cache : PathCache)
      (vehicle_id : ℕ) (route : Route) (direction : Direction)
      (current_speed : Velocity) (current_time distance_to_intersection : ℚ) :
      ReachableGrid (try_two_path_intersection_request cache vehicle_id
        route direction current_speed current_time distance_to_intersection
        g).2.2
  | release (g : Grid) (h : ReachableGrid g) (cells : List (ℕ × ℕ))
      (vehicle_id : ℕ) :
      ReachableGrid (release_specific_cells g cells vehicle_id)

/-- Reserving checked cells preserves the no-overlap property, in the
generalized form needed to chain segment 2 after segment 1: g1 extends g0
only by slots of the reserving vehicle, and the window was checked against
g0. The conclusion keeps the same extension shape so it can be applied
twice. -/
lemma noOverlap_reserve_of_checked (g0 g1 : Grid) (vehicle_id : ℕ)
    (cells : List (ℕ × ℕ)) (start endq : ℚ)
    (hinv : NoOverlapInvariant g1)
    (hext : ∀ p, ∀ slot ∈ g1 p, slot ∈ g0 p ∨ slot.vehicle_id = vehicle_id)
    (hchk : can_reserve_cells g0 cells start endq = true) :
    NoOverlapInvariant
        (reserve_cells_for_vehicle g1 vehicle_id cells start endq) ∧
      ∀ p, ∀ slot ∈ reserve_cells_for_vehicle g1 vehicle_id cells start
          endq p, slot ∈ g0 p ∨ slot.vehicle_id = vehicle_id := by
  have hfree := (can_reserve_cells_eq_true_iff g0 cells start endq).mp hchk
  constructor
  · intro p s1 hs1 s2 hs2 hne hover
    rcases mem_reserve_cells_for_vehicle g1 vehicle_id cells start endq p
        s1 hs1 with h1 | ⟨h1eq, h1mem, h1c, h1r⟩
    · rcases mem_reserve_cells_for_vehicle g1 vehicle_id cells start endq p
          s2 hs2 with h2 | ⟨h2eq, h2mem, h2c, h2r⟩
      · exact hinv p s1 h1 s2 h2 hne hover
      · rcases hext p s1 h1 with h1g0 | h1id
        · subst h2eq
          exact hfree p h2mem h2c h2r s1 h1g0 ⟨hover.2, hover.1⟩
        · subst h2eq
          exact hne (h1id.trans rfl)
    · rcases mem_reserve_cells_for_vehicle g1 vehicle_id cells start endq p
          s2 hs2 with h2 | ⟨h2eq, _, _, _⟩
      · rcases hext p s2 h2 with h2g0 | h2id
        · subst h1eq
          exact hfree p h1mem h1c h1r s2 h2g0 ⟨hover.1, hover.2⟩
        · subst h1eq
          exact hne (h2id.symm ▸ rfl)
      · subst h1eq
        subst h2eq
        exact hne rfl
  · intro p slot hs
    rcases mem_reserve_cells_for_vehicle g1 vehicle_id cells start endq p
        slot hs with h | ⟨heq, _, _, _⟩
    · exact hext p slot h
    · exact Or.inr (heq ▸ rfl)

/-- Committing an admissible candidate preserves the no-overlap property:
both reservation pushes were checked against the entry grid, and the first
push only adds slots of the same vehicle. -/
lemma noOverlap_commit (g : Grid) (vehicle_id : ℕ) (path : VehiclePath)
    (current_time distance_to_intersection : ℚ) (s : Velocity)
    (hinv : NoOverlapInvariant g)
    (hadm : admissible g path current_time distance_to_intersection s
      = true) :
    NoOverlapInvariant
      (commit_reservations g vehicle_id path current_time
        distance_to_intersection s) := by
  unfold admissible at hadm
  unfold commit_reservations
  cases hseg : path.segment2 with
  | none =>
    simp only [hseg, Bool.and_true] at hadm
    exact (noOverlap_reserve_of_checked g g vehicle_id path.segment1.cells
      _ _ hinv (fun p slot h => Or.inl h) hadm).1
  | some segment2 =>
    simp only [hseg, Bool.and_eq_true] at hadm
    have step1 := noOverlap_reserve_of_checked g g vehicle_id
      path.segment1.cells
      (current_time + calculate_time_with_speed distance_to_intersection s)
      ((current_time +
          calculate_time_with_speed distance_to_intersection s) +
        calculate_time_with_speed path.segment1.distance s)
      hinv (fun p slot h => Or.inl h) hadm.1
    exact (noOverlap_reserve_of_checked g _ vehicle_id segment2.cells _ _
      step1.1 step1.2 hadm.2).1

/-- try_two_path_intersection_request preserves the no-overlap property. -/
lemma noOverlap_request (cache : PathCache) (vehicle_id : ℕ) (route : Route)
    (direction : Direction) (current_speed : Velocity)
    (current_time distance_to_intersection : ℚ) (g : Grid)
    (hinv : NoOverlapInvariant g) :
    NoOverlapInvariant (try_two_path_intersection_request cache vehicle_id
      route direction current_speed current_time distance_to_intersection
      g).2.2 := by
  unfold try_two_path_intersection_request
  cases hc : cache (direction, route) with
  | none => exact hinv
  | some path =>
    dsimp only
    rw [tryLoop_eq_find]
    cases hf : (speeds_to_try current_speed).find?
        (admissible g path current_time distance_to_intersection) with
    | none => exact hinv
    | some s =>
      exact noOverlap_commit g vehicle_id path current_time
        distance_to_intersection s hinv (List.find?_some hf)

/-- release_specific_cells preserves the no-overlap property: every cell
keeps a sublist of its slots. -/
lemma noOverlap_release (g : Grid) (cells : List (ℕ × ℕ)) (vehicle_id : ℕ)
    (hinv : NoOverlapInvariant g) :
    NoOverlapInvariant (release_specific_cells g cells vehicle_id) := by
  intro p s1 hs1 s2 hs2
  rw [release_specific_cells_apply] at hs1 hs2
  by_cases hb : p ∈ cells ∧ p.1 < cols ∧ p.2 < rows
  · rw [if_pos hb] at hs1 hs2
    exact hinv p s1 (List.mem_of_mem_filter hs1) s2
      (List.mem_of_mem_filter hs2)
  · rw [if_neg hb] at hs1 hs2
    exact hinv p s1 hs1 s2 hs2

/-- C1: in every grid reachable by any sequence of spawn and update calls
from the initial empty grid, no cell holds two reservations of different
vehicle ids whose half-open time windows overlap. -/
theorem no_overlap_reachable (g : Grid) (h : ReachableGrid g) :
    NoOverlapInvariant g := by
  induction h with
  | init => intro p s1 hs1; exact absurd hs1 (List.not_mem_nil s1)
  | request g hg cache vehicle_id route direction current_speed
      current_time distance_to_intersection ih =>
    exact noOverlap_request cache vehicle_id route direction current_speed
      current_time distance_to_intersection g ih
  | release g hg cells vehicle_id ih =>
    exact noOverlap_release g cells vehicle_id ih

/-- Witness for C1 at a concrete reachable grid: the initial empty grid. -/
theorem no_overlap_reachable_witness : NoOverlapInvariant emptyGrid :=
  no_overlap_reachable emptyGrid ReachableGrid.init
/-- A reservation grid holding one foreign slot on cell (20, 0) with window
0 .. 1/30: it blocks the fast candidate of a North straight request made at
time 0 from distance 10 (window 1/42 .. 31/42) but not the medium candidate
(window 1/30 .. 31/30). -/
def c5_grid : Grid := fun p => if p = (20, 0) then [⟨0, 1 / 30, 99⟩] else []

/-- Counterexample for C5: a vehicle stopped at the entrance (distance 10,
no permission) is granted even though the fast-only candidate list would be
denied, because the stopped-at-the-entrance branch passes Fast into the
request and Fast expands to the descending list fast, medium, slow — so the
medium candidate is attempted and committed while the vehicle is stopped at
the line. -/
theorem stopped_retry_counterexample :
    (tryLoop (calculate_vehicle_path .North .Straight) 1 0 10 c5_grid
      [.fast]).1 = false ∧
    (try_two_path_intersection_request initialize_path_cache 1 .Straight
      .North .fast 0 10 c5_grid).1 = true ∧
    (try_two_path_intersection_request initialize_path_cache 1 .Straight
      .North .fast 0 10 c5_grid).2.1 = Velocity.medium ∧
    (intersection_speed_decision initialize_path_cache 1 .Straight .North
      .stopped 10 false false true false 0 c5_grid).2.2.1 = true := by
  with_unfolding_all decide

/-- C5 as amended: a vehicle that is not past and not inside the
intersection, at distance at most 10 from it and without permission,
re-enters the request every tick through the stopped-at-the-entrance
branch, which passes the fastest speed as the requested candidate; that
candidate expands to the descending list fast, medium, slow (not to the
fast-only list), commanding fast on a grant and stopped on a denial. -/
theorem stopped_retry_amended (cache : PathCache) (vehicle_id : ℕ)
    (route : Route) (direction : Direction) (vehicle_speed : Velocity)
    (distance_to_intersection t : ℚ) (requested : Bool) (g : Grid)
    (hdist : distance_to_intersection ≤ 10) :
    intersection_speed_decision cache vehicle_id route direction
        vehicle_speed distance_to_intersection false false requested false
        t g =
      ((if (try_two_path_intersection_request cache vehicle_id route
            direction .fast t distance_to_intersection g).1 then
          Velocity.fast else Velocity.stopped), true,
        (try_two_path_intersection_request cache vehicle_id route direction
          .fast t distance_to_intersection g).1,
        (try_two_path_intersection_request cache vehicle_id route direction
          .fast t distance_to_intersection g).2.2) ∧
    speeds_to_try .fast = [.fast, .medium, .slow] := by
  have h150 : ¬distance_to_intersection > 150 := by linarith
  have h60 : ¬distance_to_intersection > 60 := by linarith
  constructor
  · simp only [intersection_speed_decision, if_neg h150, if_neg h60,
      Bool.false_eq_true, if_false, Bool.not_false, Bool.or_true,
      eq_self_iff_true, if_true, and_true, if_pos hdist, ite_self]
  · rfl

/-- Witness for C5 as amended, at a concrete input. -/
theorem stopped_retry_amended_witness :
    (10 : ℚ) ≤ 10 ∧
    (intersection_speed_decision (fun _ => none) 1 .Straight .North
        .stopped 10 false false false false 0 emptyGrid =
      ((if (try_two_path_intersection_request (fun _ => none) 1 .Straight
            .North .fast 0 10 emptyGrid).1 then
          Velocity.fast else Velocity.stopped), true,
        (try_two_path_intersection_request (fun _ => none) 1 .Straight
          .North .fast 0 10 emptyGrid).1,
        (try_two_path_intersection_request (fun _ => none) 1 .Straight
          .North .fast 0 10 emptyGrid).2.2) ∧
      speeds_to_try .fast = [.fast, .medium, .slow]) :=
  ⟨by norm_num,
    stopped_retry_amended (fun _ => none) 1 .Straight .North .stopped 10 0
      false emptyGrid (by norm_num)⟩

/-- A vehicle inside the zone (its 40x70 box at (480, 480) overlaps the
350..650 square). -/
def cw1 : Veh := ⟨1, .Straight, .North, 40, 70, 50, (480, 480), 0⟩

/-- A second vehicle inside the zone, 1 px along the travel axis from the
first. -/
def cw2 : Veh := ⟨2, .Straight, .North, 40, 70, 50, (482, 481), 0⟩

/-- C6 evaluated at the failing input: two vehicles inside the zone at axis
distance 1 (below the 5 px floor) on two consecutive ticks. The first pass
counts one close call; running a second pass on the state the first one
left behind adds nothing, because close_call_pairs_this_frame is never
cleared; had the pair set been reset before the second pass, as the claim
states, the counter would reach 2. -/
theorem close_call_pairs_never_reset :
    is_in_intersection cw1 = true ∧
    is_in_intersection cw2 = true ∧
    distance_to_vehicle cw1 cw2 < 5 ∧
    (close_call_pass [cw1, cw2] ⟨0, []⟩).close_calls = 1 ∧
    (close_call_pass [cw1, cw2]
      (close_call_pass [cw1, cw2] ⟨0, []⟩)).close_calls = 1 ∧
    (close_call_pass [cw1, cw2]
      { close_calls := (close_call_pass [cw1, cw2] ⟨0, []⟩).close_calls
        close_call_pairs_this_frame := [] }).close_calls = 2 := by
  with_unfolding_all decide

/-- A rear vehicle 50 px behind its leader along the northbound axis. -/
def c7_rear : Veh := ⟨1, .Straight, .North, 40, 70, 50, (500, 600), 0⟩

/-- The lead vehicle ahead of c7_rear in the same lane. -/
def c7_lead : Veh := ⟨2, .Straight, .North, 40, 70, 50, (500, 550), 0⟩

/-- Counterexample for C7: at closest distance 50 against a required
safe-following distance of 120 (so below the 70 percent threshold of 84),
the traffic target speed the code computes is stopped, not slow. -/
theorem following_thresholds_counterexample :
    is_past_intersection c7_rear = false ∧
    closest_ahead_scan [c7_rear, c7_lead] 0 c7_rear = (some 50, 120) ∧
    (50 : ℚ) < 120 * (7 / 10) ∧
    traffic_target_speed [c7_rear, c7_lead] 0 = Velocity.stopped ∧
    Velocity.stopped ≠ Velocity.slow := by
  with_unfolding_all decide

/-- C7 as amended: for a vehicle not past the zone with at least one
vehicle ahead in its lane (closest distance c, recorded required distance
r, with r nonnegative as every actual required distance is), the traffic
target speed is stopped below 70 percent of r, medium below 80 percent,
and fast otherwise. -/
theorem following_thresholds_amended (vehicles : List Veh) (i : ℕ)
    (cur : Veh) (c r : ℚ)
    (hcur : vehicles[i]? = some cur)
    (hpast : is_past_intersection cur = false)
    (hscan : closest_ahead_scan vehicles i cur = (some c, r))
    (hr : 0 ≤ r) :
    traffic_target_speed vehicles i =
      if c < r * (7 / 10) then Velocity.stopped
      else if c < r * (8 / 10) then Velocity.medium
      else Velocity.fast := by
  unfold traffic_target_speed
  rw [hcur]
  simp only [hpast, Bool.false_eq_true, if_false, hscan]
  by_cases h7 : c < r * (7 / 10)
  · have hcr : c < r := lt_of_lt_of_le h7 (by nlinarith)
    simp only [traffic_speed_decision, if_pos hcr, if_pos h7]
  · by_cases h8 : c < r * (8 / 10)
    · have hcr : c < r := lt_of_lt_of_le h8 (by nlinarith)
      simp only [traffic_speed_decision, if_pos hcr, if_neg h7, if_pos h8]
    · by_cases hcr : c < r
      · simp only [traffic_speed_decision, if_pos hcr, if_neg h7, if_neg h8]
      · simp only [traffic_speed_decision, if_neg hcr, if_neg h7, if_neg h8]

/-- Witness for C7 as amended, at the concrete two-vehicle input. -/
theorem following_thresholds_amended_witness :
    ([c7_rear, c7_lead][0]? = some c7_rear) ∧
    is_past_intersection c7_rear = false ∧
    closest_ahead_scan [c7_rear, c7_lead] 0 c7_rear = (some 50, 120) ∧
    (0 : ℚ) ≤ 120 ∧
    traffic_target_speed [c7_rear, c7_lead] 0 =
      (if (50 : ℚ) < 120 * (7 / 10) then Velocity.stopped
       else if (50 : ℚ) < 120 * (8 / 10) then Velocity.medium
       else Velocity.fast) :=
  ⟨rfl, by with_unfolding_all decide, by with_unfolding_all decide,
    by norm_num,
    following_thresholds_amended [c7_rear, c7_lead] 0 c7_rear 50 120 rfl
      (by with_unfolding_all decide) (by with_unfolding_all decide)
      (by norm_num)⟩

/-- Counterexample for C8: a lookup miss during an admission request is not
an unrecoverable fault — the request returns normally, handling the miss
per call as an ordinary denial with recommended speed Slow and an untouched
grid. -/
theorem path_cache_miss_counterexample :
    try_two_path_intersection_request (fun _ => none) 7 .Left .North .fast
      0 20 emptyGrid = (false, Velocity.slow, emptyGrid) := rfl

/-- C8 as amended: the path cache is exhaustively populated with all 12
(direction, route) keys at construction, so a lookup miss cannot occur in
a run; the miss branch that does exist is handled per call as a recoverable
denial — the request returns no permission with recommended speed Slow and
leaves the grid unchanged — not as a fatal fault. -/
theorem path_cache_miss_amended :
    (∀ (d : Direction) (r : Route),
      (initialize_path_cache (d, r)).isSome = true) ∧
    ∀ (cache : PathCache) (vehicle_id : ℕ) (route : Route)
      (direction : Direction) (current_speed : Velocity) (t dist : ℚ)
      (g : Grid), cache (direction, route) = none →
        try_two_path_intersection_request cache vehicle_id route direction
          current_speed t dist g = (false, .slow, g) := by
  constructor
  · intro d r
    cases d <;> cases r <;> with_unfolding_all decide
  · intro cache vehicle_id route direction current_speed t dist g h
    unfold try_two_path_intersection_request
    rw [h]

/-- Witness for C8 as amended, at concrete inputs for both parts. -/
theorem path_cache_miss_amended_witness :
    (initialize_path_cache (.North, .Straight)).isSome = true ∧
    ((fun _ => none : PathCache) (Direction.North, Route.Straight)
      = none) ∧
    try_two_path_intersection_request (fun _ => none) 1 .Straight .North
      .fast 0 10 emptyGrid = (false, .slow, emptyGrid) :=
  ⟨path_cache_miss_amended.1 .North .Straight, rfl,
    path_cache_miss_amended.2 (fun _ => none) 1 .Straight .North .fast 0 10
      emptyGrid rfl⟩

end SmartRoad
